import Mathlib

/-!
Shallow embedding of src/easybuild/easyblocks/l/libsmm.py (class Libsmm):
the configure, make and sanitycheck steps of the libsmm easyblock, together
with the distutils LooseVersion comparison that gates the -flto option.
-/

/-- Python str() of an os.getenv result: None renders as the string None. -/
def pyStr : Option String → String
  | none => "None"
  | some s => s

/-- Python truthiness of an os.getenv result: None and the empty string are falsy. -/
def pyTruthy : Option String → Bool
  | none => false
  | some s => s != ""

/-- One component of a distutils LooseVersion: a digit run becomes a number, any other run stays a string. -/
inductive VComp where
  | num (n : Nat)
  | str (s : String)
deriving DecidableEq

/-- Character class used by the LooseVersion component pattern: digit runs, lowercase letter runs, the dot separator, and everything else. -/
def charClass (c : Char) : Nat :=
  if c.isDigit then 0 else if c.isLower then 1 else if c = '.' then 2 else 3

/-- Close the current run and emit it in front of out (the run accumulator is reversed). -/
def pushRun (k : Nat) (acc : List Char) (out : List (Nat × String)) : List (Nat × String) :=
  if acc.isEmpty then out else (k, String.mk acc.reverse) :: out

/-- Group a character list into maximal runs of a single character class (accumulator form). -/
def runsAux : List Char → Nat → List Char → List (Nat × String) → List (Nat × String)
  | [], k, acc, out => (pushRun k acc out).reverse
  | c :: cs, k, acc, out =>
      if charClass c = k then runsAux cs k (c :: acc) out
      else runsAux cs (charClass c) [c] (pushRun k acc out)

/-- Group a character list into maximal runs of a single character class. -/
def runs : List Char → List (Nat × String)
  | [] => []
  | c :: cs => runsAux cs (charClass c) [c] []

/-- Python int() of a digit run, reading the characters most significant first. -/
def digitsToNat : List Char → Nat → Nat
  | [], acc => acc
  | c :: cs, acc => digitsToNat cs (acc * 10 + (c.toNat - ('0').toNat))

/-- Convert one run to a LooseVersion component: dot runs are dropped, digit runs become numbers, any other run stays a string. -/
def toComp : Nat × String → Option VComp
  | (0, s) => some (VComp.num (digitsToNat s.data 0))
  | (2, _) => none
  | (_, s) => some (VComp.str s)

/-- distutils LooseVersion.parse: split into digit, lowercase and other runs, drop the dots, read digit runs as numbers. -/
def looseParse (s : String) : List VComp :=
  (runs s.data).filterMap toComp

/-- Python 2 comparison of two components: numbers compare numerically, strings lexicographically, and a number is always smaller than a string because Python 2 falls back to comparing the type names int and str. -/
def vcompLt : VComp → VComp → Bool
  | VComp.num a, VComp.num b => decide (a < b)
  | VComp.str a, VComp.str b => decide (a < b)
  | VComp.num _, VComp.str _ => true
  | VComp.str _, VComp.num _ => false

/-- Python 2 lexicographic comparison of component lists. -/
def vlistLt : List VComp → List VComp → Bool
  | [], [] => false
  | [], _ :: _ => true
  | _ :: _, [] => false
  | a :: as, b :: bs => if vcompLt a b then true else if vcompLt b a then false else vlistLt as bs

/-- LooseVersion v is at least LooseVersion w (Python ge is cmp not-less). -/
def looseGE (v w : String) : Bool := !(vlistLt (looseParse v) (looseParse w))

/-- Template chunk of cfg_tpl before the eb_version placeholder. -/
def tpl0 : String :=
  "# This config file was generated by EasyBuild v"

/-- Template chunk of cfg_tpl between eb_version and transposeflavour. -/
def tpl1 : String :=
  "\n\n# the build script can generate optimized routines packed in a library for\n# 1) \x27nn\x27 => C=C+MATMUL(A,B)\n# 2) \x27tn\x27 => C=C+MATMUL(TRANSPOSE(A),B)\n# 3) \x27nt\x27 => C=C+MATMUL(A,TRANSPOSE(B))\n# 4) \x27tt\x27 => C=C+MATMUL(TRANPOSE(A),TRANPOSE(B))\n#\n# select a tranpose_flavor from the list 1 2 3 4\n#\ntranspose_flavor="

/-- Template chunk of cfg_tpl between transposeflavour and datatype. -/
def tpl2 : String :=
  "\n\n# 1) d => double precision real\n# 2) s => single precision real\n# 3) z => double precision complex\n# 4) c => single precision complex\n#\n# select a data_type from the list 1 2 3 4\n#\ndata_type="

/-- Template chunk of cfg_tpl between datatype and targetcompile. -/
def tpl3 : String :=
  "\n\n# target compiler... this are the options used for building the library.\n# They should be aggessive enough to e.g. perform vectorization for the specific CPU (e.g. -ftree-vectorize -march=native),\n# and allow some flexibility in reordering floating point expressions (-ffast-math).\n# Higher level optimisation (in particular loop nest optimization) should not be used.\n#\ntarget_compile=\x22"

/-- Template chunk of cfg_tpl between targetcompile and LIBBLAS. -/
def tpl4 : String :=
  "\x22\n\n# target dgemm link options... these are the options needed to link blas (e.g. -lblas)\n# blas is used as a fall back option for sizes not included in the library or in those cases where it is faster\n# the same blas library should thus also be used when libsmm is linked.\n#\nOMP_NUM_THREADS=1\nblas_linking=\x22"

/-- Template chunk of cfg_tpl between LIBBLAS and dims. -/
def tpl5 : String :=
  "\x22\n\n# matrix dimensions for which optimized routines will be generated.\n# since all combinations of M,N,K are being generated the size of the library becomes very large\n# if too many sizes are being optimized for. Numbers have to be ascending.\n#\ndims_small=\x22"

/-- Template chunk of cfg_tpl between dims and tiny_dims. -/
def tpl6 : String :=
  "\x22\n\n# tiny dimensions are used as primitves and generated in an \x27exhaustive\x27 search.\n# They should be a sequence from 1 to N,\n# where N is a number that is large enough to have good in cache performance\n# (e.g. for modern SSE cpus 8 to 12)\n# Too large (>12?) is not beneficial, but increases the time needed to build the library\n# Too small (<8)   will lead to a slow library, but the build might proceed quickly\n# The minimum number for a successful build is 4\n#\ndims_tiny=\x22"

/-- Template chunk of cfg_tpl between tiny_dims and the host_compile key (the chunk splits before the key so that theorems can name the host_compile line; tpl7a followed by tpl7b is exactly the template text). -/
def tpl7a : String :=
  "\x22\n\n# host compiler... this is used only to compile a few tools needed to build the library.\n# The library itself is not compiled this way.\n# This compiler needs to be able to deal with some Fortran2003 constructs.\n#\n"

/-- The host_compile key and its opening quote. -/
def tpl7b : String :=
  "host_compile=\x22"

/-- The single trailing space and closing quote after the hostcompile value. -/
def tpl8a : String :=
  " \x22"

/-- Template chunk of cfg_tpl between the host_compile line and tasks. -/
def tpl8b : String :=
  "\n\n# number of processes to use in parallel for compiling / building and benchmarking the library.\n# Should *not* be more than the physical (available) number of cores of the machine\n#\ntasks="

/-- Template chunk of cfg_tpl after tasks (the trailing newlines and indentation of the Python literal). -/
def tpl9 : String :=
  "\n\n        "

/-- The substitution mapping built by Libsmm.make (cfgdict), with every value already in its Python string form. -/
structure Cfgdict where
  eb_version : String
  transposeflavour : String
  datatype : String
  targetcompile : String
  LIBBLAS : String
  dims : String
  tiny_dims : String
  hostcompile : String
  tasks : String
deriving DecidableEq

/-- cfg_tpl percent cfgdict: the fixed template with each placeholder replaced by the corresponding value. The tpl chunks concatenate to exactly the literal template text of Libsmm.make. -/
def cfg_render (d : Cfgdict) : String :=
  tpl0 ++ d.eb_version ++ tpl1 ++ d.transposeflavour ++ tpl2 ++ d.datatype ++ tpl3 ++
  d.targetcompile ++ tpl4 ++ d.LIBBLAS ++ tpl5 ++ d.dims ++ tpl6 ++ d.tiny_dims ++
  tpl7a ++ tpl7b ++ d.hostcompile ++ tpl8a ++ tpl8b ++ d.tasks ++ tpl9

/-- Ambient state read by Libsmm.make: the environment variables it consumes, the get_software_root lookup (per the spec an external service that, given a package name, returns its installed root or absent), and whether writing config.in raises IOError (none means the write succeeds). -/
structure Env where
  SOFTROOTGCC : Option String
  SOFTVERSIONGCC : Option String
  F90 : Option String
  LDFLAGS : Option String
  LIBBLAS : Option String
  roots : String → Option String
  writeError : Option String

/-- Easyconfig options read through getcfg. -/
structure Cfg where
  transpose_flavour : Int
  max_tiny_dim : Nat
  dims : List Int
  parallel : Nat

/-- The fixed base optimization options of Libsmm.make. -/
def smmOpts : String :=
  "-O2 -funroll-loops -ffast-math -ftree-vectorize -march=native -fno-inline-functions"

/-- The version gated extra option of Libsmm.make: -flto when the GCC version is at least 4.6 under LooseVersion comparison, empty otherwise. -/
def extraOpt (v : String) : String := if looseGE v "4.6" then "-flto" else ""

/-- The targetcompile local of Libsmm.make, percent-formatted from hostcompile, opts and extra. -/
def targetCompile (f90 : Option String) (v : String) : String :=
  pyStr f90 ++ " " ++ smmOpts ++ " " ++ extraOpt v

/-- Python range(a, b). -/
def pyRange (a b : Nat) : List Nat := List.range' a (b - a)

/-- The tiny_dims value of cfgdict: space-joined str of range(1, max_tiny_dim + 1). -/
def tinyDimsStr (k : Nat) : String :=
  String.intercalate " " ((pyRange 1 (k + 1)).map toString)

/-- The cfgdict of Libsmm.make for one datatype code. -/
def mkCfgdict (ebv : String) (env : Env) (cfg : Cfg) (dt : Int) : Cfgdict where
  eb_version := ebv
  transposeflavour := toString cfg.transpose_flavour
  datatype := toString dt
  targetcompile := targetCompile env.F90 (pyStr env.SOFTVERSIONGCC)
  LIBBLAS := pyStr env.LDFLAGS ++ " " ++ pyStr env.LIBBLAS
  dims := String.intercalate " " (cfg.dims.map toString)
  tiny_dims := tinyDimsStr cfg.max_tiny_dim
  hostcompile := pyStr env.F90
  tasks := toString cfg.parallel

/-- Externally visible action of Libsmm.make: a file write or a run_cmd invocation. -/
inductive Event where
  | writeFile (name : String) (contents : String)
  | runCmd (cmd : String)
deriving DecidableEq

/-- The ranked backend candidate list of Libsmm.make. -/
def blas_libs : List String := ["ACML", "ATLAS", "IMKL"]

/-- The datatype iterations of Libsmm.make: integer code and description. -/
def datatypes : List (Int × String) :=
  [(1, "double precision real"), (3, "double precision complex")]

/-- Embedding of Libsmm.make. Errors are the messages passed to log.error, which per the spec (section 7) aborts the build; an error result carries no events, so on failure nothing is rendered and no external step runs. run_cmd is modelled from the spec (section 1) as an external service returning exit status plus captured output (the outcomes argument, indexed by invocation order); Libsmm.make discards those return values, so the definition never consumes outcomes. A None or empty SOFTVERSIONGCC makes the LooseVersion comparison raise AttributeError, modelled as an error as well. -/
def make (ebv : String) (env : Env) (cfg : Cfg) (outcomes : Nat → Int × String) :
    Except String (List Event) :=
  if pyTruthy env.SOFTROOTGCC = false then
    Except.error "No supported compiler found (tried GCC)"
  else if pyTruthy env.SOFTVERSIONGCC = false then
    Except.error "AttributeError: LooseVersion instance has no attribute \x27version\x27"
  else if blas_libs.any (fun b => (env.roots b).isSome) = false then
    Except.error "No known BLAS library found!"
  else
    match env.writeError with
    | some e => Except.error ("Failed to write config.in: " ++ e)
    | none =>
        Except.ok (List.flatten (datatypes.map (fun p =>
          [Event.writeFile "config.in" (cfg_render (mkCfgdict ebv env cfg p.1)),
           Event.runCmd "./do_clean",
           Event.runCmd "./do_all"])))

/-- Externally visible action of Libsmm.configure. -/
inductive CEvent where
  | chdir (dst : String)
  | logDebug (msg : String)
  | logException (msg : String)
deriving DecidableEq

/-- os.chdir: raises OSError (the carried message) when osError is set. -/
def pyChdir (dst : String) (osError : Option String) : Except String CEvent :=
  match osError with
  | none => Except.ok (CEvent.chdir dst)
  | some e => Except.error e

/-- Embedding of Libsmm.configure. The try block attempts the chdir and on success logs a debug line; the except OSError clause catches the failure and calls log.exception. Modelled from the spec: logging is an opaque consumed service (section 1), so log.exception records the message and does not alter control flow. An error result would model an uncaught exception escaping configure. -/
def configure (osError : Option String) : Except String (List CEvent) :=
  match pyChdir "tools/build_libsmm" osError with
  | Except.ok ev => Except.ok [ev, CEvent.logDebug "Change to directory tools/build_libsmm"]
  | Except.error err =>
      Except.ok [CEvent.logException ("Failed to change to directory tools/build_libsmm: " ++ err)]

/-- Value of the sanityCheckPaths easyconfig option. -/
structure SCPaths where
  files : List String
  dirs : List String
deriving DecidableEq

/-- Libsmm.sanitycheck path selection: when no sanityCheckPaths value is configured (Python falsy, that is absent or empty, modelled as none) the fixed dnn and znn static library list is installed; otherwise the configured value is kept. -/
def libsmmSanityPaths (cur : Option SCPaths) : SCPaths :=
  match cur with
  | some p => p
  | none =>
      { files := ["dnn", "znn"].map (fun x => "lib/libsmm_" ++ x ++ ".a"), dirs := [] }

/-- Modelled from the spec: Application.sanitycheck of the generic framework (easybuild.framework.application, not under src) checks the configured paths against the installed tree and, per section 4.5, fails with VerificationError listing every missing expected artifact; existing is the list of files present under the destination. -/
def appSanityCheck (existing : List String) (p : SCPaths) : Except (List String) Unit :=
  match p.files.filter (fun f => !(existing.contains f)) with
  | [] => Except.ok ()
  | missing => Except.error missing

/-- Libsmm.sanitycheck: install the default paths when none are configured, then run the generic check. -/
def libsmmSanityCheck (cur : Option SCPaths) (existing : List String) :
    Except (List String) Unit :=
  appSanityCheck existing (libsmmSanityPaths cur)

/-- Modelled from the spec: the first discoverable candidate in ranked order (section 4.1 step c). This is the spec-side selection rule, stated for comparison; Libsmm.make itself performs no such selection. -/
def rankedBackend (roots : String → Option String) : Option String :=
  blas_libs.find? (fun b => (roots b).isSome)

/-- A fully discoverable environment fixture. -/
def envOk : Env where
  SOFTROOTGCC := some "/software/GCC/4.7.2"
  SOFTVERSIONGCC := some "4.7.2"
  F90 := some "gfortran"
  LDFLAGS := some "-L/software/ACML/lib"
  LIBBLAS := some "-lacml"
  roots := fun b => if b = "ACML" then some "/software/ACML" else none
  writeError := none

/-- The default easyconfig option values of the Libsmm easyblock. -/
def cfgDefault : Cfg where
  transpose_flavour := 1
  max_tiny_dim := 12
  dims := [1, 4, 5, 6, 9, 13, 16, 17, 22]
  parallel := 4

/-- Command outcomes where every external command succeeds. -/
def zeroOutcomes : Nat → Int × String := fun _ => (0, "")

/-- An environment with no GCC marker set. -/
def envNoGcc : Env := { envOk with SOFTROOTGCC := none }

/-- An environment where only IMKL is discoverable. -/
def envI : Env := { envOk with roots := fun b => if b = "IMKL" then some "/software/IMKL" else none }

/-- An environment where no backend candidate is discoverable. -/
def envNoBlas : Env := { envOk with roots := fun _ => none }

/-- Command outcomes where invocation 1 (the build step of the first variant) exits with status 1 and every other invocation succeeds. -/
def failOutcomes : Nat → Int × String :=
  fun n => if n = 1 then (1, "make: command ./do_all exited 1") else (0, "")

/-- A string whose character list ends in a space never equals some prefix followed by -flto. -/
theorem ne_append_flto (s : String) (h : s.data.getLast? = some ' ') :
    ∀ pre : String, s ≠ pre ++ "-flto" := by
  intro pre hc
  have hd := congrArg String.data hc
  rw [String.data_append] at hd
  rw [hd] at h
  have hfl : ("-flto" : String).data = ['-', 'f', 'l', 't', 'o'] := rfl
  rw [hfl] at h
  rw [List.getLast?_append] at h
  simp at h

/-- The targetcompile string built without the extra option ends in a space. -/
theorem targetCompile_no_extra_last (f90 : Option String) :
    ((pyStr f90 ++ " " ++ smmOpts) ++ " ").data.getLast? = some ' ' := by
  rw [String.data_append, List.getLast?_append]
  rfl

/-- C3: the link-time-optimization flag -flto is appended to the rendered targetcompile value exactly when the detected GCC version is at least the fixed threshold 4.6 under LooseVersion comparison; at or above the threshold the value is the base flags with -flto appended, and below the threshold the appended extra is empty, so the value does not end in -flto. -/
theorem C3_flto_threshold (f90 : Option String) (v : String) :
    (looseGE v "4.6" = true →
      targetCompile f90 v = (pyStr f90 ++ " " ++ smmOpts ++ " ") ++ "-flto") ∧
    (looseGE v "4.6" = false →
      ∀ pre : String, targetCompile f90 v ≠ pre ++ "-flto") := by
  constructor
  · intro hge
    simp [targetCompile, extraOpt, hge]
  · intro hge
    have hrw : targetCompile f90 v = (pyStr f90 ++ " " ++ smmOpts) ++ " " := by
      simp [targetCompile, extraOpt, hge]
    rw [hrw]
    exact ne_append_flto _ (targetCompile_no_extra_last f90)

/-- C3 witness at the two boundary versions 4.6 and 4.5. -/
theorem C3_flto_threshold_witness :
    targetCompile (some "gfortran") "4.6" =
      (pyStr (some "gfortran") ++ " " ++ smmOpts ++ " ") ++ "-flto" ∧
    targetCompile (some "gfortran") "4.5" ≠ "gfortran " ++ "-flto" :=
  ⟨(C3_flto_threshold (some "gfortran") "4.6").1 (by decide),
   (C3_flto_threshold (some "gfortran") "4.5").2 (by decide) "gfortran "⟩

/-- C4: for every VariantConfig with max_tiny_dim = k and k at least 4, the rendered dims_tiny value is the space-separated rendering of a list that is exactly the integers 1 through k inclusive, strictly ascending, with no duplicates. -/
theorem C4_tiny_dims (k : Nat) (_h : 4 ≤ k) :
    ∃ l : List Nat, tinyDimsStr k = String.intercalate " " (l.map toString) ∧
      List.Pairwise (· < ·) l ∧ l.Nodup ∧ ∀ i, i ∈ l ↔ 1 ≤ i ∧ i ≤ k := by
  refine ⟨List.range' 1 k, ?_, List.pairwise_lt_range' 1 k, List.nodup_range' 1 k, ?_⟩
  · unfold tinyDimsStr pyRange
    simp
  · intro i
    rw [List.mem_range'_1]
    omega

/-- C4 witness at the default max_tiny_dim of 12. -/
theorem C4_tiny_dims_witness :
    ∃ l : List Nat, tinyDimsStr 12 = String.intercalate " " (l.map toString) ∧
      List.Pairwise (· < ·) l ∧ l.Nodup ∧ ∀ i, i ∈ l ↔ 1 ≤ i ∧ i ≤ 12 :=
  C4_tiny_dims 12 (by decide)

/-- C5: when the GCC environment marker is absent (or empty, which Python treats the same), make fails at once with the no-supported-compiler error; the error result carries no events, so no config is rendered and no clean or build step is invoked, and no fallback compiler is used. -/
theorem C5_toolchain_not_found (ebv : String) (env : Env) (cfg : Cfg)
    (outcomes : Nat → Int × String) (h : pyTruthy env.SOFTROOTGCC = false) :
    make ebv env cfg outcomes = Except.error "No supported compiler found (tried GCC)" := by
  simp [make, h]

/-- C5 witness: a concrete environment without SOFTROOTGCC. -/
theorem C5_toolchain_not_found_witness :
    make "0.8" envNoGcc cfgDefault zeroOutcomes =
      Except.error "No supported compiler found (tried GCC)" :=
  C5_toolchain_not_found "0.8" envNoGcc cfgDefault zeroOutcomes rfl

/-- C7: in every rendered configuration, the host_compile value is the host compiler invocation followed by exactly one space inside the quotes: the output decomposes around the literal host_compile line. -/
theorem C7_host_compile_trailing_space (d : Cfgdict) :
    ∃ pre post : String,
      cfg_render d = pre ++ ("host_compile=\x22" ++ d.hostcompile ++ " \x22") ++ post := by
  refine ⟨tpl0 ++ d.eb_version ++ tpl1 ++ d.transposeflavour ++ tpl2 ++ d.datatype ++ tpl3 ++
    d.targetcompile ++ tpl4 ++ d.LIBBLAS ++ tpl5 ++ d.dims ++ tpl6 ++ d.tiny_dims ++ tpl7a,
    tpl8b ++ d.tasks ++ tpl9, ?_⟩
  simp only [cfg_render, tpl7b, tpl8a, String.append_assoc]

/-- C8: rendering is deterministic; identical inputs give byte-identical output. -/
theorem C8_render_deterministic (d1 d2 : Cfgdict) (h : d1 = d2) :
    cfg_render d1 = cfg_render d2 := by rw [h]

/-- C8 witness at a concrete cfgdict. -/
theorem C8_render_deterministic_witness :
    cfg_render (mkCfgdict "0.8" envOk cfgDefault 1) =
      cfg_render (mkCfgdict "0.8" envOk cfgDefault 1) :=
  C8_render_deterministic _ _ rfl

/-- C9: configure never lets the OSError escape: for every chdir outcome it returns ok, and when the chdir fails it only logs the failure (no chdir event happened, so later phases run in the original working directory). -/
theorem C9_configure_catches (osError : Option String) :
    (configure osError).isOk = true ∧
    (∀ e, osError = some e →
      configure osError =
        Except.ok [CEvent.logException ("Failed to change to directory tools/build_libsmm: " ++ e)]) := by
  cases osError <;> simp [configure, pyChdir, Except.isOk, Except.toBool]

/-- C9 witness at a concrete OSError. -/
theorem C9_configure_catches_witness :
    (configure (some "No such file or directory")).isOk = true ∧
    configure (some "No such file or directory") =
      Except.ok [CEvent.logException
        ("Failed to change to directory tools/build_libsmm: " ++ "No such file or directory")] :=
  ⟨(C9_configure_catches (some "No such file or directory")).1,
   (C9_configure_catches (some "No such file or directory")).2 "No such file or directory" rfl⟩

/-- C10: the sanity check writes its default dnn and znn artifact list only when no sanityCheckPaths value is configured; a configured value is kept unchanged. -/
theorem C10_sanity_paths_frame :
    (∀ p : SCPaths, libsmmSanityPaths (some p) = p) ∧
    libsmmSanityPaths none = { files := ["lib/libsmm_dnn.a", "lib/libsmm_znn.a"], dirs := [] } := by
  exact ⟨fun _ => rfl, rfl⟩


/-- C6: under the default configuration the verification step checks exactly the two artifacts lib/libsmm_dnn.a and lib/libsmm_znn.a; it passes exactly when both exist in the destination, and when it fails the error lists exactly the missing names. -/
theorem C6_verification (existing : List String) :
    (libsmmSanityCheck none existing = Except.ok () ↔
      "lib/libsmm_dnn.a" ∈ existing ∧ "lib/libsmm_znn.a" ∈ existing) ∧
    (∀ m, libsmmSanityCheck none existing = Except.error m →
      ∀ x, x ∈ m ↔ ((x = "lib/libsmm_dnn.a" ∨ x = "lib/libsmm_znn.a") ∧ x ∉ existing)) := by
  by_cases hA : "lib/libsmm_dnn.a" ∈ existing <;> by_cases hB : "lib/libsmm_znn.a" ∈ existing
  · have hres : libsmmSanityCheck none existing = Except.ok () := by
      simp [libsmmSanityCheck, libsmmSanityPaths, appSanityCheck, hA, hB]
    refine ⟨by rw [hres]; simp [hA, hB], ?_⟩
    rw [hres]
    intro m hm
    simp at hm
  · have hres : libsmmSanityCheck none existing = Except.error ["lib/libsmm_znn.a"] := by
      simp [libsmmSanityCheck, libsmmSanityPaths, appSanityCheck, hA, hB]
    refine ⟨by rw [hres]; simp [hB], ?_⟩
    rw [hres]
    intro m hm
    injection hm with hm
    subst hm
    intro x
    constructor
    · intro hx
      rw [List.mem_singleton] at hx
      subst hx
      exact ⟨Or.inr rfl, hB⟩
    · rintro ⟨rfl | rfl, hnx⟩
      · exact absurd hA hnx
      · exact List.mem_singleton.mpr rfl
  · have hres : libsmmSanityCheck none existing = Except.error ["lib/libsmm_dnn.a"] := by
      simp [libsmmSanityCheck, libsmmSanityPaths, appSanityCheck, hA, hB]
    refine ⟨by rw [hres]; simp [hA], ?_⟩
    rw [hres]
    intro m hm
    injection hm with hm
    subst hm
    intro x
    constructor
    · intro hx
      rw [List.mem_singleton] at hx
      subst hx
      exact ⟨Or.inl rfl, hA⟩
    · rintro ⟨rfl | rfl, hnx⟩
      · exact List.mem_singleton.mpr rfl
      · exact absurd hB hnx
  · have hres : libsmmSanityCheck none existing =
        Except.error ["lib/libsmm_dnn.a", "lib/libsmm_znn.a"] := by
      simp [libsmmSanityCheck, libsmmSanityPaths, appSanityCheck, hA, hB]
    refine ⟨by rw [hres]; simp [hA], ?_⟩
    rw [hres]
    intro m hm
    injection hm with hm
    subst hm
    intro x
    constructor
    · intro hx
      rcases List.mem_pair.mp hx with rfl | rfl
      · exact ⟨Or.inl rfl, hA⟩
      · exact ⟨Or.inr rfl, hB⟩
    · rintro ⟨rfl | rfl, hnx⟩
      · exact List.mem_pair.mpr (Or.inl rfl)
      · exact List.mem_pair.mpr (Or.inr rfl)

/-- C6 witness: with only the dnn artifact present the check fails listing exactly the znn artifact, and with both present it passes. -/
theorem C6_verification_witness :
    libsmmSanityCheck none ["lib/libsmm_dnn.a", "lib/libsmm_znn.a"] = Except.ok () ∧
    ("lib/libsmm_znn.a" ∈ ["lib/libsmm_znn.a"] ↔
      (("lib/libsmm_znn.a" = "lib/libsmm_dnn.a" ∨ "lib/libsmm_znn.a" = "lib/libsmm_znn.a") ∧
        "lib/libsmm_znn.a" ∉ ["lib/libsmm_dnn.a"])) :=
  ⟨(C6_verification ["lib/libsmm_dnn.a", "lib/libsmm_znn.a"]).1.mpr (by simp),
   (C6_verification ["lib/libsmm_dnn.a"]).2 ["lib/libsmm_znn.a"] (by rfl) "lib/libsmm_znn.a"⟩

/-- C1 counterexample: two environments identical except for which single backend candidate is discoverable (ACML first in ranked order versus IMKL last). The spec-side ranked selection differs, yet Libsmm.make produces byte-identical results, and even in the IMKL-only environment the rendered blas_linking value is just the LDFLAGS and LIBBLAS environment strings: no candidate is ever selected and the backend link flags do not come from the first discoverable candidate. -/
theorem C1_counterexample :
    rankedBackend envOk.roots = some "ACML" ∧
    rankedBackend envI.roots = some "IMKL" ∧
    make "0.8" envOk cfgDefault zeroOutcomes = make "0.8" envI cfgDefault zeroOutcomes ∧
    (mkCfgdict "0.8" envI cfgDefault 1).LIBBLAS = "-L/software/ACML/lib -lacml" :=
  ⟨rfl, rfl, rfl, rfl⟩

/-- C1 amended: Libsmm.make fails with the no-known-BLAS error exactly when none of the ranked candidates ACML, ATLAS, IMKL has a discoverable root; when at least one is discoverable the build proceeds, but no candidate is selected: the result of make, including every rendered blas_linking value, is identical for every combination of discoverable candidates. -/
theorem C1_backend_discovery (ebv : String) (env : Env) (cfg : Cfg)
    (outcomes : Nat → Int × String)
    (hgcc : pyTruthy env.SOFTROOTGCC = true) (hver : pyTruthy env.SOFTVERSIONGCC = true) :
    ((∀ b ∈ blas_libs, env.roots b = none) →
      make ebv env cfg outcomes = Except.error "No known BLAS library found!") ∧
    (∀ roots1 roots2 : String → Option String,
      (∃ b ∈ blas_libs, (roots1 b).isSome) → (∃ b ∈ blas_libs, (roots2 b).isSome) →
      make ebv { env with roots := roots1 } cfg outcomes =
        make ebv { env with roots := roots2 } cfg outcomes) := by
  constructor
  · intro hnone
    have hany : blas_libs.any (fun b => (env.roots b).isSome) = false := by
      rw [List.any_eq_false]
      intro b hb
      rw [hnone b hb]
      simp
    simp [make, hgcc, hver, hany]
  · intro roots1 roots2 h1 h2
    have hany1 : blas_libs.any (fun b => (roots1 b).isSome) = true := by
      rw [List.any_eq_true]
      obtain ⟨b, hb, hsome⟩ := h1
      exact ⟨b, hb, hsome⟩
    have hany2 : blas_libs.any (fun b => (roots2 b).isSome) = true := by
      rw [List.any_eq_true]
      obtain ⟨b, hb, hsome⟩ := h2
      exact ⟨b, hb, hsome⟩
    simp [make, hgcc, hver, hany1, hany2]
    rfl

/-- C1 amended witness: with no discoverable candidate make aborts with the BLAS error, and an ACML-only environment behaves identically to an IMKL-only one. -/
theorem C1_backend_discovery_witness :
    make "0.8" envNoBlas cfgDefault zeroOutcomes = Except.error "No known BLAS library found!" ∧
    make "0.8" { envNoBlas with roots := envOk.roots } cfgDefault zeroOutcomes =
      make "0.8" { envNoBlas with roots := envI.roots } cfgDefault zeroOutcomes :=
  ⟨(C1_backend_discovery "0.8" envNoBlas cfgDefault zeroOutcomes rfl rfl).1
      (fun b _ => rfl),
   (C1_backend_discovery "0.8" envNoBlas cfgDefault zeroOutcomes rfl rfl).2
      envOk.roots envI.roots ⟨"ACML", by simp [blas_libs], rfl⟩ ⟨"IMKL", by simp [blas_libs], rfl⟩⟩

/-- C2 counterexample: with the build step of the first variant exiting nonzero (invocation 1 of failOutcomes), Libsmm.make returns a result byte-identical to the all-success run, and that result is a success. No VariantResult with succeeded false and a diagnostic is recorded anywhere, and the aggregate outcome does not depend on the exit statuses, contradicting the claimed aggregate reporting. -/
theorem C2_counterexample :
    make "0.8" envOk cfgDefault failOutcomes = make "0.8" envOk cfgDefault zeroOutcomes ∧
    (make "0.8" envOk cfgDefault failOutcomes).isOk = true :=
  ⟨rfl, rfl⟩

/-- C2 amended: for every outcome of the external steps, the runner still writes each variant config and invokes clean and build for every variant in planned order (so one failing build never stops later variants), but it records no per-variant result and returns no aggregate: the result of make is the same for all exit statuses. -/
theorem C2_runner_continues (ebv : String) (env : Env) (cfg : Cfg)
    (f g : Nat → Int × String)
    (hgcc : pyTruthy env.SOFTROOTGCC = true) (hver : pyTruthy env.SOFTVERSIONGCC = true)
    (hblas : blas_libs.any (fun b => (env.roots b).isSome) = true)
    (hw : env.writeError = none) :
    make ebv env cfg f = make ebv env cfg g ∧
    make ebv env cfg f = Except.ok
      [Event.writeFile "config.in" (cfg_render (mkCfgdict ebv env cfg 1)),
       Event.runCmd "./do_clean", Event.runCmd "./do_all",
       Event.writeFile "config.in" (cfg_render (mkCfgdict ebv env cfg 3)),
       Event.runCmd "./do_clean", Event.runCmd "./do_all"] := by
  refine ⟨rfl, ?_⟩
  simp [make, hgcc, hver, hblas, hw, datatypes]

/-- C2 amended witness: the concrete failing-first-build run produces the same full two-variant trace as the all-success run. -/
theorem C2_runner_continues_witness :
    make "0.8" envOk cfgDefault failOutcomes = make "0.8" envOk cfgDefault zeroOutcomes ∧
    make "0.8" envOk cfgDefault failOutcomes = Except.ok
      [Event.writeFile "config.in" (cfg_render (mkCfgdict "0.8" envOk cfgDefault 1)),
       Event.runCmd "./do_clean", Event.runCmd "./do_all",
       Event.writeFile "config.in" (cfg_render (mkCfgdict "0.8" envOk cfgDefault 3)),
       Event.runCmd "./do_clean", Event.runCmd "./do_all"] :=
  C2_runner_continues "0.8" envOk cfgDefault failOutcomes zeroOutcomes rfl rfl rfl rfl
